import Mathlib

/-!
Shallow embedding of the persistence and query layer of `app.py`
(fitness tracker: workouts, meals, goals, calorie goals backed by SQLite).

Each Flask handler is embedded as a pure function from the request payload
and the database state to a response paired with the successor state.
SQLite specifics that the handlers rely on are modelled explicitly:
dynamic typing with column affinity (a bound value is stored after the
column's affinity conversion, so a non-numeric string bound to an INTEGER
column is stored as text), NOT NULL enforcement, AUTOINCREMENT row ids,
`CURRENT_TIMESTAMP` defaults (passed in as an explicit `now` argument),
`SUM` ignoring NULLs and returning NULL over zero rows (coalesced by the
handlers' `or 0`), and `INSERT OR REPLACE` deleting the conflicting row
before inserting a fresh one.
-/

namespace Fitness

/-- An SQLite storage value as it can appear in this schema: NULL, an
INTEGER, or TEXT. (JSON payloads in scope carry null, integers and
strings.) -/
inductive Value where
  | vnull : Value
  | vint : Int → Value
  | vtext : String → Value
deriving DecidableEq

/-- Numeric value of a digit list (most significant first). -/
def digitsVal (l : List Char) : Nat :=
  l.foldl (fun acc c => acc * 10 + (c.toNat - 48)) 0

/-- Parse a whole string as an optionally signed decimal integer, the way
SQLite decides that a TEXT value "looks like" an integer for affinity
conversion. -/
def parseIntText (s : String) : Option Int :=
  let core : List Char → Option Nat := fun l =>
    if l.isEmpty then none
    else if l.all Char.isDigit then some (digitsVal l) else none
  match s.toList with
  | '-' :: rest => (core rest).map (fun n => -(n : Int))
  | '+' :: rest => (core rest).map (fun n => (n : Int))
  | l => (core l).map (fun n => (n : Int))

/-- Integer value SQLite uses for a stored value inside `SUM`: NULL rows are
skipped by the caller, integers count as themselves, and text is coerced
through its longest signed numeric leading segment (0 if none). -/
def valueToInt : Value → Int
  | Value.vnull => 0
  | Value.vint n => n
  | Value.vtext s =>
    match s.toList with
    | '-' :: rest => -(digitsVal (rest.takeWhile Char.isDigit) : Int)
    | '+' :: rest => (digitsVal (rest.takeWhile Char.isDigit) : Int)
    | l => (digitsVal (l.takeWhile Char.isDigit) : Int)

/-- INTEGER column affinity: text that looks like an integer is converted,
anything else is stored as bound. -/
def applyIntegerAffinity : Value → Value
  | Value.vtext s =>
    match parseIntText s with
    | some n => Value.vint n
    | none => Value.vtext s
  | v => v

/-- Store a value into a TEXT NOT NULL column: NULL violates the constraint
(`none`), an integer is converted to its decimal text, text is kept. -/
def asTextNotNull : Value → Option String
  | Value.vnull => none
  | Value.vint n => some (toString n)
  | Value.vtext s => some s

/-- Store a value into an INTEGER NOT NULL column: NULL violates the
constraint, otherwise integer affinity applies. -/
def asIntNotNull : Value → Option Value
  | Value.vnull => none
  | v => some (applyIntegerAffinity v)

/-- Store a value into a nullable TEXT column. -/
def asTextCol : Value → Value
  | Value.vint n => Value.vtext (toString n)
  | v => v

/-- A JSON object payload: association list of keys to values. A request
whose body is not a JSON object is modelled as `none` at the call sites
(the handlers' subscript then raises TypeError). -/
abbrev Obj := List (String × Value)

/-- Subscript `data[k]` on a JSON object: `none` models the KeyError. -/
def jget (data : Obj) (k : String) : Option Value :=
  (data.find? (fun p => p.1 == k)).map Prod.snd

/-- Lookup `data.get(k, d)` with default. -/
def jgetD (data : Obj) (k : String) (d : Value) : Value :=
  (jget data k).getD d

/-- Row of the `workouts` table. -/
structure Workout where
  id : Nat
  date : String
  type : String
  duration : Value
  calories : Value
  notes : Value
  created_at : String
deriving DecidableEq

/-- Row of the `meals` table. -/
structure Meal where
  id : Nat
  date : String
  meal_type : String
  food_name : String
  calories : Value
  protein : Value
  carbs : Value
  fats : Value
  notes : Value
  created_at : String
deriving DecidableEq

/-- Row of the `goals` table. -/
structure Goal where
  id : Nat
  goal_type : String
  target_value : Value
  deadline : Value
  created_at : String
deriving DecidableEq

/-- Row of the `calorie_goals` table (`date` is UNIQUE). -/
structure CalorieGoal where
  id : Nat
  date : String
  daily_goal : Value
  created_at : String
deriving DecidableEq

/-- Database state: the four tables in rowid (insertion) order, plus each
table's AUTOINCREMENT sequence (the id the next insert receives; ids are
never reused, even across `INSERT OR REPLACE`). -/
structure DB where
  workouts : List Workout
  meals : List Meal
  goals : List Goal
  calorie_goals : List CalorieGoal
  next_workout_id : Nat
  next_meal_id : Nat
  next_goal_id : Nat
  next_calorie_goal_id : Nat
deriving DecidableEq

/-- The state produced by `init_db` on a fresh file. -/
def emptyDB : DB :=
  { workouts := [], meals := [], goals := [], calorie_goals := []
    next_workout_id := 1, next_meal_id := 1, next_goal_id := 1
    next_calorie_goal_id := 1 }

/-- Observable outcome of a handler. -/
inductive Resp where
  | created : Nat → Resp
  | createdMsg : Resp
  | ok : Resp
  | badRequest : Resp
  | serverError : Resp
deriving DecidableEq

/-- Stable insertion step for `sortLe`. -/
def insertLe (le : α → α → Bool) (x : α) : List α → List α
  | [] => [x]
  | y :: ys => if le x y then x :: y :: ys else y :: insertLe le x ys

/-- Stable insertion sort; models an SQL ORDER BY with comparison `le`. -/
def sortLe (le : α → α → Bool) : List α → List α
  | [] => []
  | x :: xs => insertLe le x (sortLe le xs)

/-- Strict lexicographic comparison of character lists; models SQLite's
byte-wise ordering of TEXT values (identical on the ASCII data in this
schema). -/
def charListLt : List Char → List Char → Bool
  | [], [] => false
  | [], _ :: _ => true
  | _ :: _, [] => false
  | a :: as, b :: bs =>
    if a < b then true else if b < a then false else charListLt as bs

/-- Strict TEXT comparison on strings. -/
def strLt (s t : String) : Bool :=
  charListLt s.toList t.toList

/-- Non-strict TEXT comparison on strings. -/
def strLe (s t : String) : Bool :=
  !(strLt t s)

/-- Two-key comparison `ORDER BY d DESC, c DESC` under SQLite TEXT
ordering. -/
def lex2 (d c : α → String) (a b : α) : Bool :=
  strLt (d b) (d a) || (d a == d b && strLe (c b) (c a))

/-- One-key comparison `ORDER BY c ASC`. -/
def byKeyAsc (c : α → String) (a b : α) : Bool :=
  strLe (c a) (c b)

/-- One-key comparison `ORDER BY c DESC`. -/
def byKeyDesc (c : α → String) (a b : α) : Bool :=
  strLe (c b) (c a)

/-- GET /api/workouts: `SELECT * FROM workouts ORDER BY date DESC,
created_at DESC`. -/
def get_workouts (db : DB) : List Workout × DB :=
  (sortLe (lex2 Workout.date Workout.created_at) db.workouts, db)

/-- POST /api/workouts: required keys date, type, duration, calories
(KeyError on a missing key is caught as a 400); notes defaults to "". -/
def add_workout (payload : Option Obj) (now : String) (db : DB) : Resp × DB :=
  match payload with
  | none => (Resp.badRequest, db)
  | some data =>
    match jget data "date", jget data "type", jget data "duration", jget data "calories" with
    | some vdate, some vtype, some vdur, some vcal =>
      match asTextNotNull vdate, asTextNotNull vtype, asIntNotNull vdur, asIntNotNull vcal with
      | some cdate, some ctype, some cdur, some ccal =>
        let w : Workout :=
          { id := db.next_workout_id, date := cdate, type := ctype
            duration := cdur, calories := ccal
            notes := asTextCol (jgetD data "notes" (Value.vtext ""))
            created_at := now }
        (Resp.created db.next_workout_id,
          { db with workouts := db.workouts ++ [w]
                    next_workout_id := db.next_workout_id + 1 })
      | _, _, _, _ => (Resp.serverError, db)
    | _, _, _, _ => (Resp.badRequest, db)

/-- DELETE /api/workouts/id: `DELETE FROM workouts WHERE id = ?`, always
answered with a success message. -/
def delete_workout (workout_id : Nat) (db : DB) : Resp × DB :=
  (Resp.ok, { db with workouts := db.workouts.filter (fun w => w.id != workout_id) })

/-- GET /api/meals: with a non-empty date parameter, `SELECT * FROM meals
WHERE date = ? ORDER BY created_at DESC`; otherwise (absent, or empty
string — `if date:` is a Python truthiness test) `SELECT * FROM meals
ORDER BY date DESC, created_at DESC LIMIT 50`. -/
def get_meals (date : Option String) (db : DB) : List Meal × DB :=
  match date with
  | some d =>
    if d = "" then
      ((sortLe (lex2 Meal.date Meal.created_at) db.meals).take 50, db)
    else
      (sortLe (byKeyDesc Meal.created_at) (db.meals.filter (fun m => m.date == d)), db)
  | none => ((sortLe (lex2 Meal.date Meal.created_at) db.meals).take 50, db)

/-- POST /api/meals: required keys date, meal_type, food_name, calories;
protein/carbs/fats default to 0 and notes to "". -/
def add_meal (payload : Option Obj) (now : String) (db : DB) : Resp × DB :=
  match payload with
  | none => (Resp.badRequest, db)
  | some data =>
    match jget data "date", jget data "meal_type", jget data "food_name", jget data "calories" with
    | some vdate, some vtype, some vfood, some vcal =>
      match asTextNotNull vdate, asTextNotNull vtype, asTextNotNull vfood, asIntNotNull vcal with
      | some cdate, some ctype, some cfood, some ccal =>
        let m : Meal :=
          { id := db.next_meal_id, date := cdate, meal_type := ctype
            food_name := cfood, calories := ccal
            protein := applyIntegerAffinity (jgetD data "protein" (Value.vint 0))
            carbs := applyIntegerAffinity (jgetD data "carbs" (Value.vint 0))
            fats := applyIntegerAffinity (jgetD data "fats" (Value.vint 0))
            notes := asTextCol (jgetD data "notes" (Value.vtext ""))
            created_at := now }
        (Resp.created db.next_meal_id,
          { db with meals := db.meals ++ [m]
                    next_meal_id := db.next_meal_id + 1 })
      | _, _, _, _ => (Resp.serverError, db)
    | _, _, _, _ => (Resp.badRequest, db)

/-- DELETE /api/meals/id. -/
def delete_meal (meal_id : Nat) (db : DB) : Resp × DB :=
  (Resp.ok, { db with meals := db.meals.filter (fun m => m.id != meal_id) })

/-- Totals object of the daily meals view. -/
structure MealTotals where
  calories : Int
  protein : Int
  carbs : Int
  fats : Int
deriving DecidableEq

/-- Aggregate `SELECT SUM(col) ...` followed by the handler coalescing
with `or 0`: NULLs are
ignored, the remaining values are summed, and a NULL result (zero non-null
values) coalesces to 0 exactly as a zero sum does. -/
def sqlSumOr0 (vs : List Value) : Int :=
  (vs.filter (fun v => v != Value.vnull)).foldr (fun v acc => valueToInt v + acc) 0

/-- GET /api/meals/daily/date: the date's meals `ORDER BY created_at ASC`
together with the four `SUM(...) or 0` totals over the same WHERE clause. -/
def get_daily_meals (date : String) (db : DB) : (List Meal × MealTotals) × DB :=
  let rows := db.meals.filter (fun m => m.date == date)
  ((sortLe (byKeyAsc Meal.created_at) rows,
    { calories := sqlSumOr0 (rows.map Meal.calories)
      protein := sqlSumOr0 (rows.map Meal.protein)
      carbs := sqlSumOr0 (rows.map Meal.carbs)
      fats := sqlSumOr0 (rows.map Meal.fats) }), db)

/-- GET /api/calorie-goals/date: `SELECT * FROM calorie_goals WHERE
date = ?` with `fetchone` (first row in rowid order, `none` when absent). -/
def get_calorie_goal (date : String) (db : DB) : Option CalorieGoal × DB :=
  (db.calorie_goals.find? (fun g => g.date == date), db)

/-- POST /api/calorie-goals: `INSERT OR REPLACE INTO calorie_goals (date,
daily_goal) VALUES (?, ?)` — any row conflicting on the UNIQUE date is
deleted and a fresh row (new AUTOINCREMENT id, new CURRENT_TIMESTAMP
created_at) is inserted. -/
def set_calorie_goal (payload : Option Obj) (now : String) (db : DB) : Resp × DB :=
  match payload with
  | none => (Resp.badRequest, db)
  | some data =>
    match jget data "date", jget data "daily_goal" with
    | some vdate, some vgoal =>
      match asTextNotNull vdate, asIntNotNull vgoal with
      | some cdate, some cgoal =>
        let g : CalorieGoal :=
          { id := db.next_calorie_goal_id, date := cdate
            daily_goal := cgoal, created_at := now }
        (Resp.createdMsg,
          { db with
              calorie_goals :=
                (db.calorie_goals.filter (fun r => r.date != cdate)) ++ [g]
              next_calorie_goal_id := db.next_calorie_goal_id + 1 })
      | _, _ => (Resp.serverError, db)
    | _, _ => (Resp.badRequest, db)

/-- Stats object of GET /api/stats. -/
structure Stats where
  total_workouts : Nat
  total_calories_burned : Int
  total_duration : Int
  total_calories_consumed : Int
  net_calories : Int
deriving DecidableEq

/-- GET /api/stats: COUNT over workouts, the three `SUM(...) or 0` totals,
and their difference. -/
def get_stats (db : DB) : Stats × DB :=
  let burned := sqlSumOr0 (db.workouts.map Workout.calories)
  let dur := sqlSumOr0 (db.workouts.map Workout.duration)
  let consumed := sqlSumOr0 (db.meals.map Meal.calories)
  ({ total_workouts := db.workouts.length
     total_calories_burned := burned
     total_duration := dur
     total_calories_consumed := consumed
     net_calories := consumed - burned }, db)

/-- GET /api/goals: `SELECT * FROM goals ORDER BY created_at DESC`. -/
def get_goals (db : DB) : List Goal × DB :=
  (sortLe (byKeyDesc Goal.created_at) db.goals, db)

/-- POST /api/goals: required keys goal_type, target_value; deadline
defaults to NULL (`data.get('deadline', None)`). -/
def add_goal (payload : Option Obj) (now : String) (db : DB) : Resp × DB :=
  match payload with
  | none => (Resp.badRequest, db)
  | some data =>
    match jget data "goal_type", jget data "target_value" with
    | some vtype, some vtarget =>
      match asTextNotNull vtype, asIntNotNull vtarget with
      | some ctype, some ctarget =>
        let g : Goal :=
          { id := db.next_goal_id, goal_type := ctype
            target_value := ctarget
            deadline := asTextCol (jgetD data "deadline" Value.vnull)
            created_at := now }
        (Resp.created db.next_goal_id,
          { db with goals := db.goals ++ [g]
                    next_goal_id := db.next_goal_id + 1 })
      | _, _ => (Resp.serverError, db)
    | _, _ => (Resp.badRequest, db)

/-- DELETE /api/goals/id. -/
def delete_goal (goal_id : Nat) (db : DB) : Resp × DB :=
  (Resp.ok, { db with goals := db.goals.filter (fun g => g.id != goal_id) })

/-- Payload of a minimal valid meal creation request. -/
def mealObj (d mt fn : String) (cal : Int) : Obj :=
  [("date", Value.vtext d), ("meal_type", Value.vtext mt),
   ("food_name", Value.vtext fn), ("calories", Value.vint cal)]

/-- State after creating three meals on 2024-01-01 at strictly increasing
times, starting from the fresh database. -/
def db3 : DB :=
  (add_meal (some (mealObj "2024-01-01" "dinner" "pasta" 700)) "2024-01-01 20:00:00"
    ((add_meal (some (mealObj "2024-01-01" "lunch" "salad" 400)) "2024-01-01 13:00:00"
      ((add_meal (some (mealObj "2024-01-01" "breakfast" "eggs" 300)) "2024-01-01 08:00:00"
        emptyDB).2)).2)).2

/-- A one-workout one-meal state used to instantiate hypotheses of the
aggregate theorems. -/
def dbW : DB :=
  { workouts := [{ id := 1, date := "2024-01-02", type := "run"
                   duration := Value.vint 60, calories := Value.vint 300
                   notes := Value.vtext "", created_at := "2024-01-02 08:00:00" }]
    meals := [{ id := 1, date := "2024-01-02", meal_type := "lunch"
                food_name := "salad", calories := Value.vint 500
                protein := Value.vint 10, carbs := Value.vint 20
                fats := Value.vint 5, notes := Value.vtext ""
                created_at := "2024-01-02 12:00:00" }]
    goals := [], calorie_goals := []
    next_workout_id := 2, next_meal_id := 2, next_goal_id := 1
    next_calorie_goal_id := 1 }

theorem insertLe_perm (le : α → α → Bool) (x : α) (l : List α) :
    (insertLe le x l).Perm (x :: l) := by
  induction l with
  | nil => exact List.Perm.refl _
  | cons y ys ih =>
    simp only [insertLe]
    split
    · exact List.Perm.refl _
    · exact (ih.cons y).trans (List.Perm.swap x y ys)

theorem sortLe_perm (le : α → α → Bool) (l : List α) : (sortLe le l).Perm l := by
  induction l with
  | nil => exact List.Perm.refl _
  | cons x xs ih => exact (insertLe_perm le x (sortLe le xs)).trans (ih.cons x)

theorem pairwise_insertLe (le : α → α → Bool)
    (htrans : ∀ a b c, le a b = true → le b c = true → le a c = true)
    (htot : ∀ a b, le a b = false → le b a = true)
    (x : α) (l : List α) (hl : l.Pairwise (fun a b => le a b = true)) :
    (insertLe le x l).Pairwise (fun a b => le a b = true) := by
  induction l with
  | nil => simp [insertLe]
  | cons y ys ih =>
    rcases List.pairwise_cons.mp hl with ⟨hy, hys⟩
    simp only [insertLe]
    split
    case isTrue h =>
      refine List.pairwise_cons.mpr ⟨?_, hl⟩
      intro b hb
      rcases List.mem_cons.mp hb with rfl | hb
      · exact h
      · exact htrans x y b h (hy b hb)
    case isFalse h =>
      have hfalse : le x y = false := by
        cases hxy : le x y
        · rfl
        · exact absurd hxy h
      refine List.pairwise_cons.mpr ⟨?_, ih hys⟩
      intro b hb
      rcases List.mem_cons.mp ((insertLe_perm le x ys).mem_iff.mp hb) with hbx | hb
      · rw [hbx]
        exact htot x y hfalse
      · exact hy b hb

theorem pairwise_sortLe (le : α → α → Bool)
    (htrans : ∀ a b c, le a b = true → le b c = true → le a c = true)
    (htot : ∀ a b, le a b = false → le b a = true)
    (l : List α) :
    (sortLe le l).Pairwise (fun a b => le a b = true) := by
  induction l with
  | nil => simp [sortLe]
  | cons x xs ih => exact pairwise_insertLe le htrans htot x _ ih

theorem charListLt_iff :
    ∀ as bs : List Char, charListLt as bs = true ↔ List.Lex (· < ·) as bs := by
  intro as
  induction as with
  | nil =>
    intro bs
    cases bs with
    | nil =>
      simp only [charListLt]
      exact iff_of_false (by simp) (fun h => by cases h)
    | cons b bs =>
      simp only [charListLt]
      exact iff_of_true trivial List.Lex.nil
  | cons a as ih =>
    intro bs
    cases bs with
    | nil =>
      simp only [charListLt]
      exact iff_of_false (by simp) (fun h => by cases h)
    | cons b bs =>
      simp only [charListLt]
      by_cases hab : a < b
      · simp only [if_pos hab]
        exact iff_of_true trivial (List.Lex.rel hab)
      · simp only [if_neg hab]
        by_cases hba : b < a
        · simp only [if_pos hba]
          constructor
          · intro h; cases h
          · intro h
            cases h with
            | cons hh => exact absurd hba (lt_irrefl _)
            | rel hh => exact absurd hh hab
        · simp only [if_neg hba]
          have hee : a = b := le_antisymm (le_of_not_lt hba) (le_of_not_lt hab)
          subst hee
          rw [ih bs]
          constructor
          · intro h; exact List.Lex.cons h
          · intro h
            cases h with
            | cons hh => exact hh
            | rel hh => exact absurd hh (lt_irrefl _)

theorem strLt_iff (s t : String) : strLt s t = true ↔ s < t := by
  rw [String.lt_iff_toList_lt]
  exact charListLt_iff s.toList t.toList

theorem strLe_iff (s t : String) : strLe s t = true ↔ s ≤ t := by
  rw [strLe, Bool.not_eq_true']
  constructor
  · intro h
    refine not_lt.mp (fun hc => ?_)
    rw [(strLt_iff t s).mpr hc] at h
    cases h
  · intro h
    cases hst : strLt t s
    · rfl
    · exact absurd ((strLt_iff t s).mp hst) (not_lt.mpr h)

theorem strLe_eq_false_iff (s t : String) : strLe s t = false ↔ t < s := by
  constructor
  · intro h
    rcases lt_or_le t s with hc | hc
    · exact hc
    · rw [(strLe_iff s t).mpr hc] at h
      cases h
  · intro h
    cases hst : strLe s t
    · rfl
    · exact absurd ((strLe_iff s t).mp hst) (not_le.mpr h)

theorem lex2_eq_true_iff (d c : α → String) (a b : α) :
    lex2 d c a b = true ↔ (d b < d a ∨ (d a = d b ∧ c b ≤ c a)) := by
  simp [lex2, strLt_iff, strLe_iff]

theorem lex2_trans (d c : α → String) :
    ∀ a b e, lex2 d c a b = true → lex2 d c b e = true → lex2 d c a e = true := by
  intro a b e hab hbe
  rw [lex2_eq_true_iff] at hab hbe ⊢
  rcases hab with h1 | ⟨h1, h1c⟩ <;> rcases hbe with h2 | ⟨h2, h2c⟩
  · exact Or.inl (lt_trans h2 h1)
  · exact Or.inl (h2 ▸ h1)
  · exact Or.inl (by rw [h1]; exact h2)
  · exact Or.inr ⟨h1.trans h2, le_trans h2c h1c⟩

theorem lex2_total_of_false (d c : α → String) :
    ∀ a b, lex2 d c a b = false → lex2 d c b a = true := by
  intro a b h
  have h2 : ¬(d b < d a ∨ (d a = d b ∧ c b ≤ c a)) := by
    rw [← lex2_eq_true_iff d c a b]
    simp [h]
  rw [lex2_eq_true_iff]
  push_neg at h2
  rcases h2 with ⟨hlt, himp⟩
  rcases lt_or_eq_of_le (not_lt.mp hlt) with hx | hx
  · exact Or.inl hx
  · exact Or.inr ⟨hx.symm, le_of_lt (himp hx)⟩

theorem byKeyAsc_trans (c : α → String) :
    ∀ a b e, byKeyAsc c a b = true → byKeyAsc c b e = true → byKeyAsc c a e = true := by
  intro a b e h1 h2
  rw [byKeyAsc, strLe_iff] at h1 h2 ⊢
  exact le_trans h1 h2

theorem byKeyAsc_total_of_false (c : α → String) :
    ∀ a b, byKeyAsc c a b = false → byKeyAsc c b a = true := by
  intro a b h
  rw [byKeyAsc, strLe_eq_false_iff] at h
  rw [byKeyAsc, strLe_iff]
  exact le_of_lt h

theorem byKeyDesc_trans (c : α → String) :
    ∀ a b e, byKeyDesc c a b = true → byKeyDesc c b e = true → byKeyDesc c a e = true := by
  intro a b e h1 h2
  rw [byKeyDesc, strLe_iff] at h1 h2 ⊢
  exact le_trans h2 h1

theorem byKeyDesc_total_of_false (c : α → String) :
    ∀ a b, byKeyDesc c a b = false → byKeyDesc c b a = true := by
  intro a b h
  rw [byKeyDesc, strLe_eq_false_iff] at h
  rw [byKeyDesc, strLe_iff]
  exact le_of_lt h

theorem filter_idem (p : α → Bool) (l : List α) :
    (l.filter p).filter p = l.filter p := by
  induction l with
  | nil => rfl
  | cons x xs ih => cases hpx : p x <;> simp [List.filter_cons, hpx, ih]

theorem sqlSumOr0_cons_vint (n : Int) (vs : List Value) :
    sqlSumOr0 (Value.vint n :: vs) = n + sqlSumOr0 vs := rfl

theorem sqlSumOr0_map_vint (cs : List Int) :
    sqlSumOr0 (cs.map Value.vint) = cs.sum := by
  induction cs with
  | nil => rfl
  | cons n ns ih => simp [List.map_cons, sqlSumOr0_cons_vint, ih]

theorem calorie_filter_ne_then_eq (l : List CalorieGoal) (d : String) :
    (l.filter (fun r => r.date != d)).filter (fun r => r.date == d) = [] := by
  induction l with
  | nil => rfl
  | cons x xs ih =>
    by_cases h : x.date = d <;> simp [List.filter_cons, h, ih]

theorem calorie_filter_ne_idem (l : List CalorieGoal) (d : String) :
    (l.filter (fun r => r.date != d)).filter (fun r => r.date != d)
      = l.filter (fun r => r.date != d) :=
  filter_idem _ l

theorem set_calorie_goal_eval (db : DB) (d : String) (g : Int) (t : String) :
    set_calorie_goal (some [("date", Value.vtext d), ("daily_goal", Value.vint g)]) t db
      = (Resp.createdMsg,
         { db with
             calorie_goals :=
               (db.calorie_goals.filter (fun r => r.date != d))
                 ++ [{ id := db.next_calorie_goal_id, date := d
                       daily_goal := Value.vint g, created_at := t }]
             next_calorie_goal_id := db.next_calorie_goal_id + 1 }) := rfl

/-- C1: for every state and date `d`, calling `set(d, g1)` and then
`set(d, g2)` leaves exactly one calorie-goal row for `d`; its `daily_goal`
is `g2`, its `created_at` is the second call's timestamp, and its id is
fresh — distinct from the id of the row the first call inserted (which was
itself the unique row for `d` in between). -/
theorem set_calorie_goal_upsert (db : DB) (d : String) (g1 g2 : Int) (t1 t2 : String) :
    ((set_calorie_goal (some [("date", Value.vtext d), ("daily_goal", Value.vint g2)]) t2
        ((set_calorie_goal (some [("date", Value.vtext d), ("daily_goal", Value.vint g1)]) t1
          db).2)).2).calorie_goals.filter (fun r => r.date == d)
      = [{ id := db.next_calorie_goal_id + 1, date := d
           daily_goal := Value.vint g2, created_at := t2 }]
    ∧ ((set_calorie_goal (some [("date", Value.vtext d), ("daily_goal", Value.vint g1)]) t1
          db).2).calorie_goals.filter (fun r => r.date == d)
      = [{ id := db.next_calorie_goal_id, date := d
           daily_goal := Value.vint g1, created_at := t1 }]
    ∧ db.next_calorie_goal_id + 1 ≠ db.next_calorie_goal_id := by
  refine ⟨?_, ?_, Nat.succ_ne_self _⟩
  · rw [set_calorie_goal_eval, set_calorie_goal_eval]
    simp only [List.filter_append, calorie_filter_ne_then_eq, calorie_filter_ne_idem,
      List.nil_append, List.filter_cons, List.filter_nil]
    simp
  · rw [set_calorie_goal_eval]
    simp only [List.filter_append, calorie_filter_ne_then_eq, List.nil_append,
      List.filter_cons, List.filter_nil]
    simp

/-- C3: the three delete operations always answer success; deleting the
same id twice changes nothing on the second call, and deleting an id no
row carries leaves the state exactly as it was. -/
theorem delete_idempotent_spec (db : DB) (i : Nat) :
    (delete_workout i db).1 = Resp.ok
    ∧ (delete_meal i db).1 = Resp.ok
    ∧ (delete_goal i db).1 = Resp.ok
    ∧ (delete_workout i (delete_workout i db).2).2 = (delete_workout i db).2
    ∧ (delete_meal i (delete_meal i db).2).2 = (delete_meal i db).2
    ∧ (delete_goal i (delete_goal i db).2).2 = (delete_goal i db).2
    ∧ ((∀ w ∈ db.workouts, w.id ≠ i) → (delete_workout i db).2 = db)
    ∧ ((∀ m ∈ db.meals, m.id ≠ i) → (delete_meal i db).2 = db)
    ∧ ((∀ g ∈ db.goals, g.id ≠ i) → (delete_goal i db).2 = db) := by
  refine ⟨rfl, rfl, rfl, ?_, ?_, ?_, ?_, ?_, ?_⟩
  · simp [delete_workout, filter_idem]
  · simp [delete_meal, filter_idem]
  · simp [delete_goal, filter_idem]
  · intro h
    have hf : db.workouts.filter (fun w => w.id != i) = db.workouts :=
      List.filter_eq_self.mpr (fun a ha => by simpa using h a ha)
    simp [delete_workout, hf]
  · intro h
    have hf : db.meals.filter (fun m => m.id != i) = db.meals :=
      List.filter_eq_self.mpr (fun a ha => by simpa using h a ha)
    simp [delete_meal, hf]
  · intro h
    have hf : db.goals.filter (fun g => g.id != i) = db.goals :=
      List.filter_eq_self.mpr (fun a ha => by simpa using h a ha)
    simp [delete_goal, hf]

/-- C3 witness: concrete instance — on a state holding one workout, one
meal and one goal, deleting id 7 (carried by no row) answers success and
leaves the state unchanged, and a second delete of id 1 after the first is
a no-op. -/
theorem delete_idempotent_spec_witness :
    ((∀ w ∈ dbW.workouts, w.id ≠ 7)
      ∧ (∀ m ∈ dbW.meals, m.id ≠ 7)
      ∧ (∀ g ∈ dbW.goals, g.id ≠ 7))
    ∧ ((delete_workout 7 dbW).1 = Resp.ok
      ∧ (delete_meal 7 dbW).1 = Resp.ok
      ∧ (delete_goal 7 dbW).1 = Resp.ok
      ∧ (delete_workout 7 (delete_workout 7 dbW).2).2 = (delete_workout 7 dbW).2
      ∧ (delete_meal 7 (delete_meal 7 dbW).2).2 = (delete_meal 7 dbW).2
      ∧ (delete_goal 7 (delete_goal 7 dbW).2).2 = (delete_goal 7 dbW).2
      ∧ (delete_workout 7 dbW).2 = dbW
      ∧ (delete_meal 7 dbW).2 = dbW
      ∧ (delete_goal 7 dbW).2 = dbW) := by
  have h1 : ∀ w ∈ dbW.workouts, w.id ≠ 7 := by decide
  have h2 : ∀ m ∈ dbW.meals, m.id ≠ 7 := by decide
  have h3 : ∀ g ∈ dbW.goals, g.id ≠ 7 := by decide
  have h := delete_idempotent_spec dbW 7
  exact ⟨⟨h1, h2, h3⟩,
    h.1, h.2.1, h.2.2.1, h.2.2.2.1, h.2.2.2.2.1, h.2.2.2.2.2.1,
    h.2.2.2.2.2.2.1 h1, h.2.2.2.2.2.2.2.1 h2, h.2.2.2.2.2.2.2.2 h3⟩

/-- C8: the workout listing is a permutation of the stored workout rows,
ordered by date descending with ties broken by creation time descending. -/
theorem get_workouts_spec (db : DB) :
    ((get_workouts db).1).Perm db.workouts
    ∧ ((get_workouts db).1).Pairwise
        (fun a b => b.date < a.date ∨ (a.date = b.date ∧ b.created_at ≤ a.created_at)) := by
  constructor
  · exact sortLe_perm _ _
  · exact (pairwise_sortLe _ (lex2_trans _ _) (lex2_total_of_false _ _) _).imp
      (fun h => (lex2_eq_true_iff _ _ _ _).mp h)

/-- C9: create calls with the optional fields omitted store the documented
defaults — workout notes and meal notes become the empty string, the meal
macro fields become 0, and the goal deadline is stored as NULL — while the
row receives the table's next id and the submitted required fields. -/
theorem create_defaults_spec (db : DB) (now d s : String) (n1 n2 : Int) :
    (add_workout (some [("date", Value.vtext d), ("type", Value.vtext s),
        ("duration", Value.vint n1), ("calories", Value.vint n2)]) now db).2.workouts
      = db.workouts
        ++ [{ id := db.next_workout_id, date := d, type := s
              duration := Value.vint n1, calories := Value.vint n2
              notes := Value.vtext "", created_at := now }]
    ∧ (add_meal (some [("date", Value.vtext d), ("meal_type", Value.vtext s),
        ("food_name", Value.vtext s), ("calories", Value.vint n1)]) now db).2.meals
      = db.meals
        ++ [{ id := db.next_meal_id, date := d, meal_type := s, food_name := s
              calories := Value.vint n1, protein := Value.vint 0
              carbs := Value.vint 0, fats := Value.vint 0
              notes := Value.vtext "", created_at := now }]
    ∧ (add_goal (some [("goal_type", Value.vtext s), ("target_value", Value.vint n1)]) now db).2.goals
      = db.goals
        ++ [{ id := db.next_goal_id, goal_type := s, target_value := Value.vint n1
              deadline := Value.vnull, created_at := now }] :=
  ⟨rfl, rfl, rfl⟩

/-- C10: every read operation returns the database unchanged: the handlers
behind GET /api/workouts, /api/meals (both modes), /api/meals/daily,
/api/calorie-goals, /api/goals and /api/stats only run SELECT queries. -/
theorem reads_leave_db_unchanged (db : DB) (d : String) (od : Option String) :
    (get_workouts db).2 = db
    ∧ (get_meals od db).2 = db
    ∧ (get_daily_meals d db).2 = db
    ∧ (get_calorie_goal d db).2 = db
    ∧ (get_goals db).2 = db
    ∧ (get_stats db).2 = db := by
  refine ⟨rfl, ?_, rfl, rfl, rfl, rfl⟩
  cases od with
  | none => rfl
  | some s =>
    by_cases h : s = "" <;> simp [get_meals, h]

/-- C2 counterexample: a create call whose required field is present but of
the wrong shape does NOT fail — a workout whose `duration` is the
non-numeric string "abc" is accepted with a 201 response and the row is
inserted (SQLite stores the string as-is in the INTEGER column), because
the handler only catches KeyError and TypeError. -/
theorem add_workout_wrong_shape_accepted_cex :
    (add_workout (some [("date", Value.vtext "2024-01-01"), ("type", Value.vtext "running"),
        ("duration", Value.vtext "abc"), ("calories", Value.vint 300)])
        "2024-01-01 10:00:00" emptyDB).1
      = Resp.created 1
    ∧ ((add_workout (some [("date", Value.vtext "2024-01-01"), ("type", Value.vtext "running"),
        ("duration", Value.vtext "abc"), ("calories", Value.vint 300)])
        "2024-01-01 10:00:00" emptyDB).2).workouts
      = [{ id := 1, date := "2024-01-01", type := "running"
           duration := Value.vtext "abc", calories := Value.vint 300
           notes := Value.vtext "", created_at := "2024-01-01 10:00:00" }] :=
  ⟨rfl, rfl⟩

/-- C2 (amended): a create call on any of the three stores whose payload
misses a required key, or whose payload is not a JSON object at all, fails
with the 400 validation response and leaves the state untouched (no
partial insert). A present field of the wrong type is not validated. -/
theorem create_missing_required_rejected (db : DB) (t : String) (p : Obj) :
    ((jget p "date" = none ∨ jget p "type" = none
        ∨ jget p "duration" = none ∨ jget p "calories" = none) →
      add_workout (some p) t db = (Resp.badRequest, db))
    ∧ ((jget p "date" = none ∨ jget p "meal_type" = none
        ∨ jget p "food_name" = none ∨ jget p "calories" = none) →
      add_meal (some p) t db = (Resp.badRequest, db))
    ∧ ((jget p "goal_type" = none ∨ jget p "target_value" = none) →
      add_goal (some p) t db = (Resp.badRequest, db))
    ∧ add_workout none t db = (Resp.badRequest, db)
    ∧ add_meal none t db = (Resp.badRequest, db)
    ∧ add_goal none t db = (Resp.badRequest, db) := by
  refine ⟨?_, ?_, ?_, rfl, rfl, rfl⟩
  · intro h
    cases h1 : jget p "date" <;> cases h2 : jget p "type" <;>
      cases h3 : jget p "duration" <;> cases h4 : jget p "calories" <;>
      simp [add_workout, h1, h2, h3, h4] <;> simp_all
  · intro h
    cases h1 : jget p "date" <;> cases h2 : jget p "meal_type" <;>
      cases h3 : jget p "food_name" <;> cases h4 : jget p "calories" <;>
      simp [add_meal, h1, h2, h3, h4] <;> simp_all
  · intro h
    cases h1 : jget p "goal_type" <;> cases h2 : jget p "target_value" <;>
      simp [add_goal, h1, h2] <;> simp_all

/-- C2 witness: a workout payload lacking `duration`, a meal payload
lacking `calories` and a goal payload lacking `target_value` are each
rejected with the validation response, leaving the fresh database as it
was. -/
theorem create_missing_required_rejected_witness :
    add_workout (some [("date", Value.vtext "2024-01-01"), ("type", Value.vtext "running"),
        ("calories", Value.vint 300)]) "t" emptyDB = (Resp.badRequest, emptyDB)
    ∧ add_meal (some [("date", Value.vtext "2024-01-01"), ("meal_type", Value.vtext "lunch"),
        ("food_name", Value.vtext "salad")]) "t" emptyDB = (Resp.badRequest, emptyDB)
    ∧ add_goal (some [("goal_type", Value.vtext "weight")]) "t" emptyDB
      = (Resp.badRequest, emptyDB) :=
  ⟨(create_missing_required_rejected emptyDB "t" _).1
      (Or.inr (Or.inr (Or.inl rfl))),
    (create_missing_required_rejected emptyDB "t" _).2.1
      (Or.inr (Or.inr (Or.inr rfl))),
    (create_missing_required_rejected emptyDB "t" _).2.2.1
      (Or.inr rfl)⟩

/-- C4 counterexample: three meals on 2024-01-01 created at strictly
increasing times come back from the date-scoped listing newest first, not
in ascending creation order as the claim states. -/
theorem get_meals_date_order_cex :
    ((get_meals (some "2024-01-01") db3).1).map Meal.created_at
      = ["2024-01-01 20:00:00", "2024-01-01 13:00:00", "2024-01-01 08:00:00"]
    ∧ ((get_meals (some "2024-01-01") db3).1).map Meal.created_at
      ≠ ["2024-01-01 08:00:00", "2024-01-01 13:00:00", "2024-01-01 20:00:00"]
    ∧ ("2024-01-01 08:00:00" : String) < "2024-01-01 13:00:00"
    ∧ ("2024-01-01 13:00:00" : String) < "2024-01-01 20:00:00" := by
  refine ⟨rfl, by decide, (strLt_iff _ _).mp rfl, (strLt_iff _ _).mp rfl⟩

/-- C4 (amended): for every non-empty date `d` the date-scoped meal
listing returns exactly the meals whose date equals `d`, ordered by
creation time DESCENDING (newest first); an empty-string date falls
through the handler's truthiness test to the unfiltered capped listing. -/
theorem get_meals_date_scoped_spec (db : DB) (d : String) (hd : d ≠ "") :
    ((get_meals (some d) db).1).Perm (db.meals.filter (fun m => m.date == d))
    ∧ ((get_meals (some d) db).1).Pairwise (fun a b => b.created_at ≤ a.created_at) := by
  have hv : (get_meals (some d) db).1
      = sortLe (byKeyDesc Meal.created_at) (db.meals.filter (fun m => m.date == d)) := by
    simp [get_meals, hd]
  rw [hv]
  constructor
  · exact sortLe_perm _ _
  · refine (pairwise_sortLe _ (byKeyDesc_trans _) (byKeyDesc_total_of_false _) _).imp ?_
    intro a b h
    exact (strLe_iff b.created_at a.created_at).mp h

/-- C4 witness: the amended statement instantiated on the three-meal state
at date 2024-01-01 (a non-empty date). -/
theorem get_meals_date_scoped_spec_witness :
    ("2024-01-01" : String) ≠ ""
    ∧ (((get_meals (some "2024-01-01") db3).1).Perm
          (db3.meals.filter (fun m => m.date == "2024-01-01"))
      ∧ ((get_meals (some "2024-01-01") db3).1).Pairwise
          (fun a b => b.created_at ≤ a.created_at)) :=
  ⟨by decide, get_meals_date_scoped_spec db3 "2024-01-01" (by decide)⟩

/-- C5: the stats summary counts the workout rows and, whenever the stored
calories and duration values are the integers of `cs`, `ds` and `ms`, sums
exactly those integers (so all totals are 0 over empty tables) and reports
net calories as consumed minus burned; the fresh database yields the
all-zero summary. -/
theorem get_stats_spec (db : DB) (cs ds ms : List Int)
    (hc : db.workouts.map Workout.calories = cs.map Value.vint)
    (hd : db.workouts.map Workout.duration = ds.map Value.vint)
    (hm : db.meals.map Meal.calories = ms.map Value.vint) :
    (get_stats db).1
      = { total_workouts := db.workouts.length
          total_calories_burned := cs.sum
          total_duration := ds.sum
          total_calories_consumed := ms.sum
          net_calories := ms.sum - cs.sum }
    ∧ (get_stats emptyDB).1
      = { total_workouts := 0, total_calories_burned := 0, total_duration := 0
          total_calories_consumed := 0, net_calories := 0 } := by
  constructor
  · simp only [get_stats]
    rw [hc, hd, hm, sqlSumOr0_map_vint, sqlSumOr0_map_vint, sqlSumOr0_map_vint]
  · rfl

/-- C5 witness: on the one-workout one-meal state the summary is one
workout, 300 burned, 60 minutes, 500 consumed, net 200. -/
theorem get_stats_spec_witness :
    (get_stats dbW).1
      = { total_workouts := dbW.workouts.length
          total_calories_burned := ([300] : List Int).sum
          total_duration := ([60] : List Int).sum
          total_calories_consumed := ([500] : List Int).sum
          net_calories := ([500] : List Int).sum - ([300] : List Int).sum }
    ∧ (get_stats emptyDB).1
      = { total_workouts := 0, total_calories_burned := 0, total_duration := 0
          total_calories_consumed := 0, net_calories := 0 } :=
  get_stats_spec dbW [300] [60] [500] rfl rfl rfl

/-- C6: the daily meal view returns exactly the meals of the requested
date ordered oldest first, with totals summing the stored macro integers
of exactly those meals; for a date with no meals the list is empty and
every total is 0 (integers, never null). -/
theorem get_daily_meals_spec (db : DB) (d : String) (cs ps bs fs : List Int)
    (hc : (db.meals.filter (fun m => m.date == d)).map Meal.calories = cs.map Value.vint)
    (hp : (db.meals.filter (fun m => m.date == d)).map Meal.protein = ps.map Value.vint)
    (hb : (db.meals.filter (fun m => m.date == d)).map Meal.carbs = bs.map Value.vint)
    (hf : (db.meals.filter (fun m => m.date == d)).map Meal.fats = fs.map Value.vint) :
    ((get_daily_meals d db).1).1.Perm (db.meals.filter (fun m => m.date == d))
    ∧ ((get_daily_meals d db).1).1.Pairwise (fun a b => a.created_at ≤ b.created_at)
    ∧ ((get_daily_meals d db).1).2
      = { calories := cs.sum, protein := ps.sum, carbs := bs.sum, fats := fs.sum }
    ∧ (db.meals.filter (fun m => m.date == d) = [] →
        ((get_daily_meals d db).1).1 = []
        ∧ ((get_daily_meals d db).1).2 = { calories := 0, protein := 0, carbs := 0, fats := 0 }) := by
  refine ⟨sortLe_perm _ _, ?_, ?_, ?_⟩
  · refine (pairwise_sortLe _ (byKeyAsc_trans _) (byKeyAsc_total_of_false _) _).imp ?_
    intro a b h
    exact (strLe_iff a.created_at b.created_at).mp h
  · simp only [get_daily_meals]
    rw [hc, hp, hb, hf, sqlSumOr0_map_vint, sqlSumOr0_map_vint, sqlSumOr0_map_vint,
      sqlSumOr0_map_vint]
  · intro h
    constructor
    · simp [get_daily_meals, h, sortLe]
    · simp [get_daily_meals, h, sqlSumOr0]

/-- C6 witness: the statement instantiated on the one-meal state at its
date 2024-01-02 and, through the empty-filter implication exercised at
date 2024-03-09, the zero-totals case. -/
theorem get_daily_meals_spec_witness :
    (((get_daily_meals "2024-01-02" dbW).1).1.Perm
        (dbW.meals.filter (fun m => m.date == "2024-01-02"))
      ∧ ((get_daily_meals "2024-01-02" dbW).1).1.Pairwise
          (fun a b => a.created_at ≤ b.created_at)
      ∧ ((get_daily_meals "2024-01-02" dbW).1).2
        = { calories := ([500] : List Int).sum, protein := ([10] : List Int).sum
            carbs := ([20] : List Int).sum, fats := ([5] : List Int).sum })
    ∧ (dbW.meals.filter (fun m => m.date == "2024-03-09") = []
      ∧ ((get_daily_meals "2024-03-09" dbW).1).1 = []
      ∧ ((get_daily_meals "2024-03-09" dbW).1).2
        = { calories := 0, protein := 0, carbs := 0, fats := 0 }) := by
  have h1 := get_daily_meals_spec dbW "2024-01-02" [500] [10] [20] [5] rfl rfl rfl rfl
  have h2 := get_daily_meals_spec dbW "2024-03-09" [] [] [] [] rfl rfl rfl rfl
  have hempty : dbW.meals.filter (fun m => m.date == "2024-03-09") = [] := by decide
  exact ⟨⟨h1.1, h1.2.1, h1.2.2.1⟩, hempty, (h2.2.2.2 hempty).1, (h2.2.2.2 hempty).2⟩

/-- C7: the unfiltered meal listing has length `min 50 (number of meals)`
(so at most 50 rows, and exactly 50 whenever more exist), draws only from
the stored meals, and is ordered by date descending with ties broken by
creation time descending. -/
theorem get_meals_plain_spec (db : DB) :
    ((get_meals none db).1).length = min 50 db.meals.length
    ∧ (∀ m ∈ (get_meals none db).1, m ∈ db.meals)
    ∧ ((get_meals none db).1).Pairwise
        (fun a b => b.date < a.date ∨ (a.date = b.date ∧ b.created_at ≤ a.created_at)) := by
  refine ⟨?_, ?_, ?_⟩
  · simp only [get_meals, List.length_take]
    rw [(sortLe_perm (lex2 Meal.date Meal.created_at) db.meals).length_eq]
  · intro m hm
    have hs : m ∈ sortLe (lex2 Meal.date Meal.created_at) db.meals :=
      List.take_subset _ _ hm
    exact (sortLe_perm _ _).subset hs
  · exact ((pairwise_sortLe _ (lex2_trans _ _) (lex2_total_of_false _ _) db.meals).sublist
      (List.take_sublist _ _)).imp
      (fun h => (lex2_eq_true_iff _ _ _ _).mp h)

end Fitness
